import Mathlib

/-!
Shallow embedding of the VoiceMixer DSP pipeline from src/web/mixer.js.

Modelling conventions.
* JS numbers are modelled as rationals.  The transcendental library calls
  (Math.sin, Math.cos, Math.tanh, Math.pow 2 x and the constant Math.PI)
  are abstracted as explicit oracle parameters (structure Oracles below),
  so theorems quantify over every possible value of those functions.
* A JS array of samples is a List of rationals.  The statement
  output[k] += v, whose index k is either guarded by the source or, when
  negative, stores a non-element property leaving the array elements and
  the length unchanged, is modelled by addAt, which leaves the list
  unchanged for an out-of-range index.
* Math.random() in dspJitter is modelled by an explicit stream of draws,
  one value per analysis window (the source draws exactly once per window).
* Math.floor is the integer floor and Math.round is the Mathlib round
  (both round halves toward positive infinity, as in JS).  Array lengths
  computed from floors are clamped with Int.toNat; the source never
  produces a negative length for the parameter ranges the theorems cover
  (a negative length would throw a RangeError in JS).
* JS loops of the form for (j = 0; j < a && j + off < b; j++) are modelled
  by iterating over List.range of the minimum of the two bounds.
-/

namespace Supertonic

/-- Guarded accumulation output[i] += x on a JS array: the write happens
only when i is a valid element index, matching both the bounds checks the
source performs and the fact that writing a negative index never changes
the elements or the length of a JS array. -/
def addAt (l : List ℚ) (i : ℤ) (x : ℚ) : List ℚ :=
  if 0 ≤ i ∧ i.toNat < l.length then l.set i.toNat (l.getD i.toNat 0 + x) else l

/-- Models Math.max(...l.map(Math.abs)).  The fold starts at 0 rather than
negative infinity; on a non-empty list both agree, and in the empty case
every guard of the source compares the peak against 0 or 1, where 0 and
negative infinity behave identically. -/
def peak (l : List ℚ) : ℚ := l.foldl (fun m x => max m |x|) 0

/-- Normalization block shared verbatim by dspEcho, dspReverb and
dspChorus in mixer.js: when the peak exceeds 1.0, divide every sample by
the peak. -/
def normalizeIfOver (l : List ℚ) : List ℚ :=
  let maxVal := peak l
  if 1 < maxVal then l.map (fun x => x / maxVal) else l

/-- resample from mixer.js lines 105 to 123: linear-interpolation length
converter.  Output index i maps to source position i * (length / newLength);
when idx + 1 is not a valid index the sample at idx is used unchanged.
List.getD returns 0 out of range; the source only indexes out of range when
the input is empty and newLength is positive, a case no caller produces.
resampleAt is the body of the loop, giving the sample at output index i. -/
def resampleAt (input : List ℚ) (newLength : ℕ) (i : ℕ) : ℚ :=
  let srcRatio : ℚ := (input.length : ℚ) / (newLength : ℚ)
  let srcIndex : ℚ := (i : ℚ) * srcRatio
  let idx : ℤ := ⌊srcIndex⌋
  let frac : ℚ := srcIndex - (idx : ℚ)
  if idx + 1 < (input.length : ℤ) then
    input.getD idx.toNat 0 * (1 - frac) + input.getD (idx.toNat + 1) 0 * frac
  else
    input.getD idx.toNat 0

/-- resample itself: the loop over all output indices. -/
def resample (input : List ℚ) (newLength : ℕ) : List ℚ :=
  (List.range newLength).map (resampleAt input newLength)

/-- hanningWindow from mixer.js lines 129 to 135, with Math.cos and Math.PI
abstracted. -/
def hanningWindow (cosFn : ℚ → ℚ) (piVal : ℚ) (size : ℕ) : List ℚ :=
  (List.range size).map fun (i : ℕ) =>
    1/2 * (1 - cosFn (2 * piVal * (i : ℚ) / ((size : ℚ) - 1)))

/-- pitchShiftSimple from mixer.js lines 48 to 99.  Short inputs (length
below 4096) are resampled to floor(length / srcRatio) samples and copied
into a zero-filled output of the original length; long inputs use the
overlap-add loop with window size 2048 and hop size 512, followed by peak
normalization guarded by peak > 0.  The sampleRate argument of the source
is unused there and is omitted here. -/
def pitchShiftSimple (cosFn : ℚ → ℚ) (piVal : ℚ) (input : List ℚ)
    (shiftRt : ℚ) : List ℚ :=
  if input.length < 4096 then
    let newLength : ℕ := (⌊(input.length : ℚ) / shiftRt⌋).toNat
    let resampled := resample input newLength
    (List.range input.length).map fun (i : ℕ) =>
      if i < resampled.length then resampled.getD i 0 else 0
  else
    let windowSize : ℕ := 2048
    let hopSize : ℕ := windowSize / 4
    let nFrames : ℕ := (input.length - windowSize + hopSize - 1) / hopSize
    let output := (List.range nFrames).foldl (fun out (k : ℕ) =>
      let i : ℕ := k * hopSize
      let window := hanningWindow cosFn piVal windowSize
      let frame := (List.range windowSize).map fun (j : ℕ) =>
        input.getD (i + j) 0 * window.getD j 0
      let newSize : ℕ := (⌊(windowSize : ℚ) * shiftRt⌋).toNat
      let resampled := resample frame newSize
      let outPos : ℤ := ⌊(i : ℚ) * shiftRt⌋
      (List.range (min (resampled.length : ℤ)
          ((input.length : ℤ) - outPos)).toNat).foldl (fun o (j : ℕ) =>
        let windowIdx : ℕ := (min ⌊(j : ℚ) / shiftRt⌋ ((windowSize : ℤ) - 1)).toNat
        addAt o (outPos + (j : ℤ)) (resampled.getD j 0 * window.getD windowIdx 0))
        out) (List.replicate input.length 0)
    let maxVal := peak output
    if 0 < maxVal then output.map (fun x => x / maxVal) else output

/-- Buffer transform of dspTremolo, mixer.js lines 143 to 153: multiply
sample i by 1 + depth * (sin(2 pi rate t) - 1) / 2 with t = i / sampleRate. -/
def tremoloBuf (sinFn : ℚ → ℚ) (piVal : ℚ) (sampleRate rate depth : ℚ)
    (buf : List ℚ) : List ℚ :=
  (List.range buf.length).map fun (i : ℕ) =>
    let t : ℚ := (i : ℚ) / sampleRate
    let modulation : ℚ := 1 + depth * (sinFn (2 * piVal * rate * t) - 1) / 2
    buf.getD i 0 * modulation

/-- Buffer transform of dspEcho, mixer.js lines 162 to 189: for each repeat
r from 1 to repeats add the original buffer scaled by decay ^ r at offset
delaySamples * r into a copy of the buffer, then normalize if the peak
exceeds 1. -/
def echoBuf (sampleRate delayMs decay : ℚ) (repeats : ℕ) (buf : List ℚ) :
    List ℚ :=
  let delaySamples : ℤ := ⌊sampleRate * delayMs / 1000⌋
  let output := (List.range repeats).foldl (fun out (r : ℕ) =>
    let rep : ℕ := r + 1
    let gain : ℚ := decay ^ rep
    let offset : ℤ := delaySamples * (rep : ℤ)
    (List.range buf.length).foldl (fun o (i : ℕ) =>
      addAt o ((i : ℤ) + offset) (buf.getD i 0 * gain)) out) buf
  normalizeIfOver output

/-- Fixed delay taps of dspReverb, mixer.js line 201. -/
def reverbDelays : List ℕ := [37, 53, 73, 97, 113, 131, 149, 167]

/-- Buffer transform of dspReverb, mixer.js lines 197 to 227: eight fixed
delay taps scaled by roomSize, each adding the buffer scaled by
0.3 * roomSize / 8 * (1 - damping), then normalize if the peak exceeds 1. -/
def reverbBuf (sampleRate roomSize damping : ℚ) (buf : List ℚ) : List ℚ :=
  let output := reverbDelays.foldl (fun out (delayMs : ℕ) =>
    let delaySamples : ℤ := ⌊sampleRate * (delayMs : ℚ) / 1000 * roomSize⌋
    let gain : ℚ := 3/10 * roomSize / (reverbDelays.length : ℚ)
    (List.range buf.length).foldl (fun o (i : ℕ) =>
      addAt o ((i : ℤ) + delaySamples) (buf.getD i 0 * gain * (1 - damping)))
      out) buf
  normalizeIfOver output

/-- Buffer transform of dspSharpen, mixer.js lines 234 to 247: interior
samples receive amount times the second-difference high-frequency estimate;
the first and last samples pass through unchanged. -/
def sharpenBuf (amount : ℚ) (buf : List ℚ) : List ℚ :=
  (List.range buf.length).map fun (i : ℕ) =>
    if 1 ≤ i ∧ i + 1 < buf.length then
      let highFreq : ℚ :=
        buf.getD i 0 - (buf.getD (i - 1) 0 + buf.getD (i + 1) 0) / 2
      buf.getD i 0 + highFreq * amount
    else buf.getD i 0

/-- Buffer transform of dspQuantize, mixer.js lines 254 to 263: each sample
becomes round(sample * levels) / levels. -/
def quantizeBuf (levels : ℚ) (buf : List ℚ) : List ℚ :=
  buf.map fun x => ((round (x * levels) : ℤ) : ℚ) / levels

/-- Buffer transform of dspVibrato, mixer.js lines 271 to 295: read the
input at the sinusoidally modulated fractional position with linear
interpolation; positions outside the buffer contribute the zero fill. -/
def vibratoBuf (sinFn : ℚ → ℚ) (piVal : ℚ) (sampleRate rate depth : ℚ)
    (buf : List ℚ) : List ℚ :=
  let depthSamples : ℚ := depth * (1/10)
  (List.range buf.length).map fun (i : ℕ) =>
    let t : ℚ := (i : ℚ) / sampleRate
    let modulation : ℚ := depthSamples * sinFn (2 * piVal * rate * t)
    let readPos : ℚ := (i : ℚ) + modulation
    let idx : ℤ := ⌊readPos⌋
    let frac : ℚ := readPos - (idx : ℚ)
    if 0 ≤ idx ∧ idx + 1 < (buf.length : ℤ) then
      buf.getD idx.toNat 0 * (1 - frac) + buf.getD (idx.toNat + 1) 0 * frac
    else if 0 ≤ idx ∧ idx < (buf.length : ℤ) then
      buf.getD idx.toNat 0
    else 0

/-- Buffer transform of dspJitter, mixer.js lines 302 to 327: windows of
512 samples advancing by 256; each window w draws rand w, converts the
jitter in semitones to a resample step through pow2Fn, and accumulates the
linearly interpolated reads into a zero-filled output. -/
def jitterBuf (pow2Fn : ℚ → ℚ) (rand : ℕ → ℚ) (amount : ℚ)
    (buf : List ℚ) : List ℚ :=
  let windowSize : ℕ := 512
  let nWindows : ℕ := (buf.length + (windowSize / 2) - 1) / (windowSize / 2)
  (List.range nWindows).foldl (fun out (w : ℕ) =>
    let i : ℕ := w * (windowSize / 2)
    let jitter : ℚ := (rand w - 1/2) * amount * 2
    let stepRt : ℚ := pow2Fn (jitter / 12)
    (List.range (min windowSize (buf.length - i))).foldl (fun o (j : ℕ) =>
      let readPos : ℚ := (i : ℚ) + (j : ℚ) * stepRt
      let idx : ℤ := ⌊readPos⌋
      let frac : ℚ := readPos - (idx : ℚ)
      if 0 ≤ idx ∧ idx + 1 < (buf.length : ℤ) then
        addAt o ((i + j : ℕ) : ℤ)
          (buf.getD idx.toNat 0 * (1 - frac) + buf.getD (idx.toNat + 1) 0 * frac)
      else if 0 ≤ idx ∧ idx < (buf.length : ℤ) then
        addAt o ((i + j : ℕ) : ℤ) (buf.getD idx.toNat 0)
      else o) out) (List.replicate buf.length 0)

/-- Buffer transform of dspFormantShift, mixer.js lines 334 to 343 past the
guard: resample down to floor(length / shift) samples, then resample back
to the original length. -/
def formantShiftBuf (shift : ℚ) (buf : List ℚ) : List ℚ :=
  let stretched := resample buf (⌊(buf.length : ℚ) / shift⌋).toNat
  resample stretched buf.length

/-- Buffer transform of dspChorus, mixer.js lines 351 to 385: voices 1 to
voices - 1 each read the original buffer at (i - delay) * detune with
linear interpolation, scaled by 1 / voices, accumulated onto a copy of the
buffer; then normalize if the peak exceeds 1. -/
def chorusBuf (pow2Fn : ℚ → ℚ) (sampleRate : ℚ) (voices : ℕ) (spread : ℚ)
    (buf : List ℚ) : List ℚ :=
  let maxDelay : ℤ := ⌊sampleRate * spread / 1000⌋
  let output := (List.range (voices - 1)).foldl (fun out (v0 : ℕ) =>
    let v : ℕ := v0 + 1
    let delay : ℤ := ⌊((maxDelay : ℚ) * (v : ℚ)) / (voices : ℚ)⌋
    let detune : ℚ := pow2Fn ((((v : ℚ) - (voices : ℚ) / 2) * (1/10)) / 12)
    let gain : ℚ := 1 / (voices : ℚ)
    (List.range buf.length).foldl (fun o (i : ℕ) =>
      let readPos : ℚ := ((i : ℚ) - (delay : ℚ)) * detune
      let idx : ℤ := ⌊readPos⌋
      let frac : ℚ := readPos - (idx : ℚ)
      if 0 ≤ idx ∧ idx + 1 < (buf.length : ℤ) then
        addAt o (i : ℤ)
          ((buf.getD idx.toNat 0 * (1 - frac) + buf.getD (idx.toNat + 1) 0 * frac) * gain)
      else if 0 ≤ idx ∧ idx < (buf.length : ℤ) then
        addAt o (i : ℤ) (buf.getD idx.toNat 0 * gain)
      else o) out) buf
  normalizeIfOver output

/-- Buffer transform of dspDistortion, mixer.js lines 392 to 404: scale by
drive * 50 and soft-clip through Math.tanh, abstracted as tanhFn. -/
def distortionBuf (tanhFn : ℚ → ℚ) (drive : ℚ) (buf : List ℚ) : List ℚ :=
  let amount : ℚ := drive * 50
  buf.map fun x => tanhFn (x * amount)

/-- Abstract stand-ins for the transcendental functions the source calls:
Math.sin, Math.cos, Math.tanh, the function x maps to Math.pow(2, x), and
the constant Math.PI. -/
structure Oracles where
  sinFn : ℚ → ℚ
  cosFn : ℚ → ℚ
  tanhFn : ℚ → ℚ
  pow2Fn : ℚ → ℚ
  piVal : ℚ

/-- State of a VoiceMixer instance, mixer.js lines 7 to 11: the sample rate
fixed at construction and the owned audio buffer, none until setBuffer has
been called. -/
structure Mixer where
  sampleRate : ℚ
  audioBuffer : Option (List ℚ)
deriving DecidableEq

/-- setBuffer, mixer.js lines 17 to 20 (the aliasing distinction of
Array.isArray is modelled separately in the heap layer below). -/
def setBuffer (buf : List ℚ) (m : Mixer) : Mixer :=
  { m with audioBuffer := some buf }

/-- getBuffer, mixer.js lines 26 to 28. -/
def getBuffer (m : Mixer) : Option (List ℚ) :=
  m.audioBuffer

/-- dspPitchShift, mixer.js lines 35 to 42: return this when semitones is 0
or no buffer is set, else replace the buffer by pitchShiftSimple at the
step 2 ^ (semitones / 12). -/
def dspPitchShift (O : Oracles) (semitones : ℚ) (m : Mixer) : Mixer :=
  if semitones = 0 then m else
  match m.audioBuffer with
  | none => m
  | some buf =>
    { m with audioBuffer := some (pitchShiftSimple O.cosFn O.piVal buf (O.pow2Fn (semitones / 12))) }

/-- dspTremolo, mixer.js lines 143 to 153. -/
def dspTremolo (O : Oracles) (rate depth : ℚ) (m : Mixer) : Mixer :=
  match m.audioBuffer with
  | none => m
  | some buf =>
    { m with audioBuffer := some (tremoloBuf O.sinFn O.piVal m.sampleRate rate depth buf) }

/-- dspEcho, mixer.js lines 162 to 189. -/
def dspEcho (delayMs decay : ℚ) (repeats : ℕ) (m : Mixer) : Mixer :=
  match m.audioBuffer with
  | none => m
  | some buf =>
    { m with audioBuffer := some (echoBuf m.sampleRate delayMs decay repeats buf) }

/-- dspReverb, mixer.js lines 197 to 227. -/
def dspReverb (roomSize damping : ℚ) (m : Mixer) : Mixer :=
  match m.audioBuffer with
  | none => m
  | some buf =>
    { m with audioBuffer := some (reverbBuf m.sampleRate roomSize damping buf) }

/-- dspSharpen, mixer.js lines 234 to 247. -/
def dspSharpen (amount : ℚ) (m : Mixer) : Mixer :=
  match m.audioBuffer with
  | none => m
  | some buf =>
    { m with audioBuffer := some (sharpenBuf amount buf) }

/-- dspQuantize, mixer.js lines 254 to 263. -/
def dspQuantize (levels : ℚ) (m : Mixer) : Mixer :=
  match m.audioBuffer with
  | none => m
  | some buf =>
    { m with audioBuffer := some (quantizeBuf levels buf) }

/-- dspVibrato, mixer.js lines 271 to 295. -/
def dspVibrato (O : Oracles) (rate depth : ℚ) (m : Mixer) : Mixer :=
  match m.audioBuffer with
  | none => m
  | some buf =>
    { m with audioBuffer := some (vibratoBuf O.sinFn O.piVal m.sampleRate rate depth buf) }

/-- dspJitter, mixer.js lines 302 to 327; rand is the stream of
Math.random() draws for this call, one per window. -/
def dspJitter (O : Oracles) (rand : ℕ → ℚ) (amount : ℚ) (m : Mixer) : Mixer :=
  match m.audioBuffer with
  | none => m
  | some buf =>
    { m with audioBuffer := some (jitterBuf O.pow2Fn rand amount buf) }

/-- dspFormantShift, mixer.js lines 334 to 343: return this when shift is
1.0 or no buffer is set. -/
def dspFormantShift (shift : ℚ) (m : Mixer) : Mixer :=
  if shift = 1 then m else
  match m.audioBuffer with
  | none => m
  | some buf =>
    { m with audioBuffer := some (formantShiftBuf shift buf) }

/-- dspChorus, mixer.js lines 351 to 385. -/
def dspChorus (O : Oracles) (voices : ℕ) (spread : ℚ) (m : Mixer) : Mixer :=
  match m.audioBuffer with
  | none => m
  | some buf =>
    { m with audioBuffer := some (chorusBuf O.pow2Fn m.sampleRate voices spread buf) }

/-- dspDistortion, mixer.js lines 392 to 404. -/
def dspDistortion (O : Oracles) (drive : ℚ) (m : Mixer) : Mixer :=
  match m.audioBuffer with
  | none => m
  | some buf =>
    { m with audioBuffer := some (distortionBuf O.tanhFn drive buf) }

/-- presetOperaSinging, mixer.js lines 414 to 419. -/
def presetOperaSinging (O : Oracles) (m : Mixer) : Mixer :=
  m |> dspVibrato O (11/2) (4/5) |> dspReverb (7/10) (3/10) |> dspSharpen (1/5)

/-- presetPopSinging, mixer.js lines 425 to 431. -/
def presetPopSinging (O : Oracles) (m : Mixer) : Mixer :=
  m |> dspVibrato O (9/2) (2/5) |> dspChorus O 3 15 |> dspEcho 150 (3/10) 2
    |> dspSharpen (1/4)

/-- presetJazzSinging, mixer.js lines 437 to 442. -/
def presetJazzSinging (O : Oracles) (m : Mixer) : Mixer :=
  m |> dspVibrato O 4 (3/10) |> dspReverb (2/5) (2/5) |> dspEcho 120 (1/5) 1

/-- presetRockSinging, mixer.js lines 448 to 454. -/
def presetRockSinging (O : Oracles) (m : Mixer) : Mixer :=
  m |> dspDistortion O (3/10) |> dspVibrato O 6 (1/2) |> dspEcho 180 (2/5) 2
    |> dspSharpen (2/5)

/-- presetGospelSinging, mixer.js lines 460 to 466. -/
def presetGospelSinging (O : Oracles) (m : Mixer) : Mixer :=
  m |> dspVibrato O 6 (9/10) |> dspReverb (3/5) (7/20) |> dspTremolo O 4 (1/5)
    |> dspSharpen (3/10)

/-- presetCountrySinging, mixer.js lines 472 to 478. -/
def presetCountrySinging (O : Oracles) (m : Mixer) : Mixer :=
  m |> dspFormantShift (11/10) |> dspVibrato O 5 (2/5) |> dspEcho 100 (1/4) 2
    |> dspSharpen (7/20)

/-- presetRapVocal, mixer.js lines 484 to 489. -/
def presetRapVocal (O : Oracles) (m : Mixer) : Mixer :=
  m |> dspChorus O 2 10 |> dspEcho 80 (1/5) 1 |> dspSharpen (3/10)

/-- presetEDMVocal, mixer.js lines 495 to 501. -/
def presetEDMVocal (O : Oracles) (m : Mixer) : Mixer :=
  m |> dspChorus O 4 25 |> dspEcho 100 (1/2) 3 |> dspVibrato O 6 (3/10)
    |> dspSharpen (2/5)

/-- presetChipmunk, mixer.js lines 510 to 515. -/
def presetChipmunk (O : Oracles) (m : Mixer) : Mixer :=
  m |> dspPitchShift O 8 |> dspFormantShift (13/10) |> dspTremolo O 8 (3/10)

/-- presetMonster, mixer.js lines 520 to 526. -/
def presetMonster (O : Oracles) (m : Mixer) : Mixer :=
  m |> dspPitchShift O (-7) |> dspFormantShift (7/10) |> dspDistortion O (1/5)
    |> dspReverb (1/2) (3/5)

/-- presetRobot, mixer.js lines 531 to 536. -/
def presetRobot (O : Oracles) (m : Mixer) : Mixer :=
  m |> dspQuantize 12 |> dspEcho 50 (3/10) 2 |> dspFormantShift (19/20)

/-- presetAlien, mixer.js lines 541 to 548. -/
def presetAlien (O : Oracles) (rand : ℕ → ℚ) (m : Mixer) : Mixer :=
  m |> dspPitchShift O 4 |> dspFormantShift (7/5) |> dspJitter O rand (3/10)
    |> dspReverb (3/5) (2/5) |> dspTremolo O 12 (2/5)

/-- presetCave, mixer.js lines 553 to 558. -/
def presetCave (O : Oracles) (m : Mixer) : Mixer :=
  m |> dspPitchShift O (-2) |> dspReverb (4/5) (3/10) |> dspEcho 300 (3/5) 4

/-- presetTelephone, mixer.js lines 563 to 568. -/
def presetTelephone (O : Oracles) (m : Mixer) : Mixer :=
  m |> dspFormantShift (11/10) |> dspDistortion O (3/20) |> dspQuantize 20

/-- presetEthereal, mixer.js lines 573 to 579. -/
def presetEthereal (O : Oracles) (m : Mixer) : Mixer :=
  m |> dspPitchShift O 3 |> dspChorus O 5 30 |> dspReverb (7/10) (1/5)
    |> dspVibrato O 3 (1/5)

/-- presetUnderwater, mixer.js lines 584 to 590. -/
def presetUnderwater (O : Oracles) (m : Mixer) : Mixer :=
  m |> dspPitchShift O (-1) |> dspReverb (3/5) (4/5) |> dspTremolo O 2 (2/5)
    |> dspFormantShift (17/20)

/-- presetGiant, mixer.js lines 595 to 601. -/
def presetGiant (O : Oracles) (m : Mixer) : Mixer :=
  m |> dspPitchShift O (-5) |> dspFormantShift (3/4) |> dspReverb (1/2) (2/5)
    |> dspEcho 200 (3/10) 2

/-- presetCartoon, mixer.js lines 606 to 612. -/
def presetCartoon (O : Oracles) (rand : ℕ → ℚ) (m : Mixer) : Mixer :=
  m |> dspPitchShift O 5 |> dspFormantShift (5/4) |> dspJitter O rand (1/5)
    |> dspTremolo O 10 (1/4)

/-- presetOldRadio, mixer.js lines 617 to 623. -/
def presetOldRadio (O : Oracles) (m : Mixer) : Mixer :=
  m |> dspQuantize 8 |> dspDistortion O (1/4) |> dspFormantShift (21/20)
    |> dspEcho 80 (1/5) 1

/-- presetWhisper, mixer.js lines 628 to 633. -/
def presetWhisper (O : Oracles) (m : Mixer) : Mixer :=
  m |> dspDistortion O (2/5) |> dspTremolo O 20 (3/5) |> dspSharpen (3/5)

/-- getAvailablePresets, mixer.js lines 661 to 688: the two fixed lists of
pairs of internal name and display label. -/
def getAvailablePresets : List (String × String) × List (String × String) :=
  ([("OperaSinging", "Opera"), ("PopSinging", "Pop"), ("JazzSinging", "Jazz"),
    ("RockSinging", "Rock"), ("GospelSinging", "Gospel/Soul"),
    ("CountrySinging", "Country"), ("RapVocal", "Hip-Hop/Rap"),
    ("EDMVocal", "Electronic/EDM")],
   [("Chipmunk", "Chipmunk"), ("Monster", "Monster"), ("Robot", "Robot"),
    ("Alien", "Alien"), ("Cave", "Cave/Echo"), ("Telephone", "Telephone"),
    ("Ethereal", "Ethereal"), ("Underwater", "Underwater"), ("Giant", "Giant"),
    ("Cartoon", "Cartoon"), ("OldRadio", "Old Radio"), ("Whisper", "Whisper")])

/-- Internal names of the 8 singing-style presets followed by the 12
persona presets; exactly the names for which the class has a method called
preset followed by the name, so exactly the names applyPreset dispatches. -/
def presetNames : List String :=
  (getAvailablePresets.1 ++ getAvailablePresets.2).map Prod.fst

/-- applyPreset, mixer.js lines 643 to 655: build a fresh VoiceMixer, set
the buffer, dispatch on the method named preset followed by presetName,
and return getBuffer together with a flag recording whether console.warn
reported an unknown preset name. -/
def applyPreset (O : Oracles) (rand : ℕ → ℚ) (audioBuffer : List ℚ)
    (presetName : String) (sampleRate : ℚ) : Option (List ℚ) × Bool :=
  let mixer : Mixer := setBuffer audioBuffer { sampleRate := sampleRate, audioBuffer := none }
  if presetName = "OperaSinging" then (getBuffer (presetOperaSinging O mixer), false)
  else if presetName = "PopSinging" then (getBuffer (presetPopSinging O mixer), false)
  else if presetName = "JazzSinging" then (getBuffer (presetJazzSinging O mixer), false)
  else if presetName = "RockSinging" then (getBuffer (presetRockSinging O mixer), false)
  else if presetName = "GospelSinging" then (getBuffer (presetGospelSinging O mixer), false)
  else if presetName = "CountrySinging" then (getBuffer (presetCountrySinging O mixer), false)
  else if presetName = "RapVocal" then (getBuffer (presetRapVocal O mixer), false)
  else if presetName = "EDMVocal" then (getBuffer (presetEDMVocal O mixer), false)
  else if presetName = "Chipmunk" then (getBuffer (presetChipmunk O mixer), false)
  else if presetName = "Monster" then (getBuffer (presetMonster O mixer), false)
  else if presetName = "Robot" then (getBuffer (presetRobot O mixer), false)
  else if presetName = "Alien" then (getBuffer (presetAlien O rand mixer), false)
  else if presetName = "Cave" then (getBuffer (presetCave O mixer), false)
  else if presetName = "Telephone" then (getBuffer (presetTelephone O mixer), false)
  else if presetName = "Ethereal" then (getBuffer (presetEthereal O mixer), false)
  else if presetName = "Underwater" then (getBuffer (presetUnderwater O mixer), false)
  else if presetName = "Giant" then (getBuffer (presetGiant O mixer), false)
  else if presetName = "Cartoon" then (getBuffer (presetCartoon O rand mixer), false)
  else if presetName = "OldRadio" then (getBuffer (presetOldRadio O mixer), false)
  else if presetName = "Whisper" then (getBuffer (presetWhisper O mixer), false)
  else (getBuffer mixer, true)

/-- Heap view of the JS arrays involved in one VoiceMixer: a store of
arrays addressed by allocation index, the construction-time sample rate,
and the audioBuffer field as a reference into the store.  This layer makes
the aliasing behaviour of setBuffer observable: primitives that assign
this.audioBuffer a freshly built array allocate a new store entry, while
the three primitives that write samples in place (tremolo, quantize,
distortion) overwrite the referenced entry. -/
structure JsHeapState where
  store : List (List ℚ)
  sampleRate : ℚ
  bufferId : Option ℕ
deriving DecidableEq

/-- Argument passed to setBuffer: either a plain JS Array already living in
the store, or an array-like such as a Float32Array carrying its sample
data. -/
inductive BufferArg where
  | jsArray (id : ℕ)
  | typedArray (data : List ℚ)

/-- setBuffer on the heap, mixer.js line 18: Array.isArray(buffer) keeps
the caller array by reference, anything else is copied by Array.from into
a fresh allocation. -/
def setBufferH (s : JsHeapState) : BufferArg → JsHeapState
  | .jsArray id => { s with bufferId := some id }
  | .typedArray data =>
    { s with store := s.store ++ [data], bufferId := some s.store.length }

/-- Primitive that writes its result into the referenced array in place
(the loops of the form this.audioBuffer[i] = ...). -/
def inPlaceWrite (s : JsHeapState) (f : List ℚ → List ℚ) : JsHeapState :=
  match s.bufferId with
  | none => s
  | some id => { s with store := s.store.set id (f (s.store.getD id [])) }

/-- Primitive that assigns this.audioBuffer a freshly built array: the new
array is a new allocation and the reference moves to it. -/
def freshAssign (s : JsHeapState) (f : List ℚ → List ℚ) : JsHeapState :=
  match s.bufferId with
  | none => s
  | some id =>
    { s with store := s.store ++ [f (s.store.getD id [])],
             bufferId := some s.store.length }

/-- One primitive call in a chain, with its parameters. -/
inductive DspOp where
  | pitchShift (semitones : ℚ)
  | formantShift (shift : ℚ)
  | vibrato (rate depth : ℚ)
  | tremolo (rate depth : ℚ)
  | echo (delayMs decay : ℚ) (repeats : ℕ)
  | reverb (roomSize damping : ℚ)
  | sharpen (amount : ℚ)
  | quantize (levels : ℚ)
  | jitter (amount : ℚ)
  | chorus (voices : ℕ) (spread : ℚ)
  | distortion (drive : ℚ)

/-- The heap effect of each primitive of mixer.js.  dspTremolo,
dspQuantize and dspDistortion write in place; dspPitchShift and
dspFormantShift keep the heap untouched at their neutral parameter; every
other primitive assigns a freshly built array. -/
def applyOpH (O : Oracles) (rand : ℕ → ℚ) (s : JsHeapState) : DspOp → JsHeapState
  | .pitchShift semitones =>
    if semitones = 0 then s else
    freshAssign s (fun b => pitchShiftSimple O.cosFn O.piVal b (O.pow2Fn (semitones / 12)))
  | .formantShift shift =>
    if shift = 1 then s else freshAssign s (formantShiftBuf shift)
  | .vibrato rate depth =>
    freshAssign s (vibratoBuf O.sinFn O.piVal s.sampleRate rate depth)
  | .tremolo rate depth =>
    inPlaceWrite s (tremoloBuf O.sinFn O.piVal s.sampleRate rate depth)
  | .echo delayMs decay repeats =>
    freshAssign s (echoBuf s.sampleRate delayMs decay repeats)
  | .reverb roomSize damping =>
    freshAssign s (reverbBuf s.sampleRate roomSize damping)
  | .sharpen amount => freshAssign s (sharpenBuf amount)
  | .quantize levels => inPlaceWrite s (quantizeBuf levels)
  | .jitter amount => freshAssign s (jitterBuf O.pow2Fn rand amount)
  | .chorus voices spread =>
    freshAssign s (chorusBuf O.pow2Fn s.sampleRate voices spread)
  | .distortion drive => inPlaceWrite s (distortionBuf O.tanhFn drive)

/-- Run a chain of primitive calls on the heap. -/
def runChainH (O : Oracles) (rand : ℕ → ℚ) (ops : List DspOp)
    (s : JsHeapState) : JsHeapState :=
  ops.foldl (applyOpH O rand) s

/-- Length of the buffer currently held by a Mixer, when one is set. -/
def bufLen (m : Mixer) : Option ℕ := m.audioBuffer.map List.length

/-- Concrete oracle assignment used by closed witness theorems: the
constant functions 0 for sin, cos and tanh, the constant 1 for pow2Fn. -/
def qOracles : Oracles :=
  { sinFn := fun _ => 0, cosFn := fun _ => 0, tanhFn := fun _ => 0,
    pow2Fn := fun _ => 1, piVal := 314/100 }

/-- Concrete random stream used by closed witness theorems. -/
def qRand : ℕ → ℚ := fun _ => 1/2

/-- Oracle assignment for the jitter counterexample: its pow2Fn agrees with
Math.pow(2, x) exactly at the only two arguments that run consults, namely
0 (value 1) and -1 (value 1/2). -/
def cOracles : Oracles :=
  { sinFn := fun _ => 0, cosFn := fun _ => 0, tanhFn := fun _ => 0,
    pow2Fn := fun x => 1 + x / 2, piVal := 314/100 }

/-- Stated from the words of spec section 4.1, for comparison with the
source resample: output index i maps to fractional source position
i * (len / newLength); the output sample linearly interpolates the two
bracketing input samples, and when the interpolation would read past the
last valid index the last sample value is held. -/
def resampleSpecAt (input : List ℚ) (newLength : ℕ) (i : ℕ) : ℚ :=
  let pos : ℚ := (i : ℚ) * ((input.length : ℚ) / (newLength : ℚ))
  let lo : ℕ := (⌊pos⌋).toNat
  if lo + 1 < input.length then
    input.getD lo 0 * (1 - (pos - (lo : ℚ))) + input.getD (lo + 1) 0 * (pos - (lo : ℚ))
  else
    (input.getLast?).getD 0

/-- The spec description of resample as a whole sequence. -/
def resampleSpec (input : List ℚ) (newLength : ℕ) : List ℚ :=
  (List.range newLength).map (resampleSpecAt input newLength)

theorem length_addAt (l : List ℚ) (i : ℤ) (x : ℚ) :
    (addAt l i x).length = l.length := by
  unfold addAt; split <;> simp

theorem length_foldl {β : Type} (f : List ℚ → β → List ℚ)
    (hf : ∀ a x, (f a x).length = a.length) :
    ∀ (l : List β) (init : List ℚ), (l.foldl f init).length = init.length := by
  intro l
  induction l with
  | nil => intro init; rfl
  | cons x t ih => intro init; rw [List.foldl_cons, ih, hf]

theorem length_normalizeIfOver (l : List ℚ) :
    (normalizeIfOver l).length = l.length := by
  simp only [normalizeIfOver]; split <;> simp

theorem length_resample (input : List ℚ) (n : ℕ) :
    (resample input n).length = n := by
  simp [resample]

theorem getD_map_range {f : ℕ → ℚ} {n i : ℕ} (h : i < n) (d : ℚ) :
    ((List.range n).map f).getD i d = f i := by
  rw [List.getD_eq_getElem?_getD]
  simp [List.getElem?_map, List.getElem?_range h]

theorem length_pitchShiftSimple (cosFn : ℚ → ℚ) (piVal : ℚ) (input : List ℚ)
    (shiftRt : ℚ) :
    (pitchShiftSimple cosFn piVal input shiftRt).length = input.length := by
  rw [pitchShiftSimple]
  split
  · simp
  · simp only []
    split
    · rw [List.length_map, length_foldl, List.length_replicate]
      intro a k
      exact length_foldl _ (fun o j => length_addAt o _ _) _ a
    · rw [length_foldl, List.length_replicate]
      intro a k
      exact length_foldl _ (fun o j => length_addAt o _ _) _ a

theorem length_tremoloBuf (sinFn : ℚ → ℚ) (piVal sampleRate rate depth : ℚ)
    (buf : List ℚ) :
    (tremoloBuf sinFn piVal sampleRate rate depth buf).length = buf.length := by
  simp [tremoloBuf]

theorem length_echoBuf (sampleRate delayMs decay : ℚ) (repeats : ℕ)
    (buf : List ℚ) :
    (echoBuf sampleRate delayMs decay repeats buf).length = buf.length := by
  rw [echoBuf, length_normalizeIfOver, length_foldl]
  intro a r
  exact length_foldl _ (fun o i => length_addAt o _ _) _ a

theorem length_reverbBuf (sampleRate roomSize damping : ℚ) (buf : List ℚ) :
    (reverbBuf sampleRate roomSize damping buf).length = buf.length := by
  rw [reverbBuf, length_normalizeIfOver, length_foldl]
  intro a d
  exact length_foldl _ (fun o i => length_addAt o _ _) _ a

theorem length_sharpenBuf (amount : ℚ) (buf : List ℚ) :
    (sharpenBuf amount buf).length = buf.length := by
  simp [sharpenBuf]

theorem length_quantizeBuf (levels : ℚ) (buf : List ℚ) :
    (quantizeBuf levels buf).length = buf.length := by
  simp [quantizeBuf]

theorem length_vibratoBuf (sinFn : ℚ → ℚ) (piVal sampleRate rate depth : ℚ)
    (buf : List ℚ) :
    (vibratoBuf sinFn piVal sampleRate rate depth buf).length = buf.length := by
  simp [vibratoBuf]

theorem length_jitterBuf (pow2Fn : ℚ → ℚ) (rand : ℕ → ℚ) (amount : ℚ)
    (buf : List ℚ) :
    (jitterBuf pow2Fn rand amount buf).length = buf.length := by
  rw [jitterBuf]
  simp only []
  rw [length_foldl, List.length_replicate]
  intro a w
  refine length_foldl _ (fun o j => ?_) _ a
  split
  · exact length_addAt o _ _
  · split
    · exact length_addAt o _ _
    · rfl

theorem length_formantShiftBuf (shift : ℚ) (buf : List ℚ) :
    (formantShiftBuf shift buf).length = buf.length := by
  rw [formantShiftBuf, length_resample]

theorem length_chorusBuf (pow2Fn : ℚ → ℚ) (sampleRate : ℚ) (voices : ℕ)
    (spread : ℚ) (buf : List ℚ) :
    (chorusBuf pow2Fn sampleRate voices spread buf).length = buf.length := by
  rw [chorusBuf]
  simp only []
  rw [length_normalizeIfOver, length_foldl]
  intro a v0
  refine length_foldl _ (fun o i => ?_) _ a
  split
  · exact length_addAt o _ _
  · split
    · exact length_addAt o _ _
    · rfl

theorem length_distortionBuf (tanhFn : ℚ → ℚ) (drive : ℚ) (buf : List ℚ) :
    (distortionBuf tanhFn drive buf).length = buf.length := by
  simp [distortionBuf]

@[simp] theorem bufLen_dspPitchShift (O : Oracles) (semitones : ℚ) (m : Mixer) :
    bufLen (dspPitchShift O semitones m) = bufLen m := by
  rw [dspPitchShift]
  split
  · rfl
  · cases h : m.audioBuffer <;> simp [bufLen, h, length_pitchShiftSimple]

@[simp] theorem bufLen_dspTremolo (O : Oracles) (rate depth : ℚ) (m : Mixer) :
    bufLen (dspTremolo O rate depth m) = bufLen m := by
  rw [dspTremolo]
  cases h : m.audioBuffer <;> simp [bufLen, h, length_tremoloBuf]

@[simp] theorem bufLen_dspEcho (delayMs decay : ℚ) (repeats : ℕ) (m : Mixer) :
    bufLen (dspEcho delayMs decay repeats m) = bufLen m := by
  rw [dspEcho]
  cases h : m.audioBuffer <;> simp [bufLen, h, length_echoBuf]

@[simp] theorem bufLen_dspReverb (roomSize damping : ℚ) (m : Mixer) :
    bufLen (dspReverb roomSize damping m) = bufLen m := by
  rw [dspReverb]
  cases h : m.audioBuffer <;> simp [bufLen, h, length_reverbBuf]

@[simp] theorem bufLen_dspSharpen (amount : ℚ) (m : Mixer) :
    bufLen (dspSharpen amount m) = bufLen m := by
  rw [dspSharpen]
  cases h : m.audioBuffer <;> simp [bufLen, h, length_sharpenBuf]

@[simp] theorem bufLen_dspQuantize (levels : ℚ) (m : Mixer) :
    bufLen (dspQuantize levels m) = bufLen m := by
  rw [dspQuantize]
  cases h : m.audioBuffer <;> simp [bufLen, h, length_quantizeBuf]

@[simp] theorem bufLen_dspVibrato (O : Oracles) (rate depth : ℚ) (m : Mixer) :
    bufLen (dspVibrato O rate depth m) = bufLen m := by
  rw [dspVibrato]
  cases h : m.audioBuffer <;> simp [bufLen, h, length_vibratoBuf]

@[simp] theorem bufLen_dspJitter (O : Oracles) (rand : ℕ → ℚ) (amount : ℚ)
    (m : Mixer) :
    bufLen (dspJitter O rand amount m) = bufLen m := by
  rw [dspJitter]
  cases h : m.audioBuffer <;> simp [bufLen, h, length_jitterBuf]

@[simp] theorem bufLen_dspFormantShift (shift : ℚ) (m : Mixer) :
    bufLen (dspFormantShift shift m) = bufLen m := by
  rw [dspFormantShift]
  split
  · rfl
  · cases h : m.audioBuffer <;> simp [bufLen, h, length_formantShiftBuf]

@[simp] theorem bufLen_dspChorus (O : Oracles) (voices : ℕ) (spread : ℚ)
    (m : Mixer) :
    bufLen (dspChorus O voices spread m) = bufLen m := by
  rw [dspChorus]
  cases h : m.audioBuffer <;> simp [bufLen, h, length_chorusBuf]

@[simp] theorem bufLen_dspDistortion (O : Oracles) (drive : ℚ) (m : Mixer) :
    bufLen (dspDistortion O drive m) = bufLen m := by
  rw [dspDistortion]
  cases h : m.audioBuffer <;> simp [bufLen, h, length_distortionBuf]

theorem le_peakAux (l : List ℚ) : ∀ (a : ℚ),
    a ≤ l.foldl (fun m x => max m |x|) a := by
  induction l with
  | nil => intro a; exact le_refl a
  | cons x t ih =>
    intro a
    exact le_trans (le_max_left a |x|) (ih (max a |x|))

theorem abs_le_peakAux {x : ℚ} {l : List ℚ} (hx : x ∈ l) : ∀ (a : ℚ),
    |x| ≤ l.foldl (fun m y => max m |y|) a := by
  induction l with
  | nil => cases hx
  | cons y t ih =>
    intro a
    rw [List.foldl_cons]
    rcases List.mem_cons.mp hx with h | h
    · subst h
      exact le_trans (le_max_right a |x|) (le_peakAux t (max a |x|))
    · exact ih h (max a |y|)

theorem abs_le_peak {x : ℚ} {l : List ℚ} (hx : x ∈ l) : |x| ≤ peak l :=
  abs_le_peakAux hx 0

theorem abs_le_one_of_mem_normalizeIfOver {x : ℚ} {l : List ℚ}
    (hx : x ∈ normalizeIfOver l) : |x| ≤ 1 := by
  rw [normalizeIfOver] at hx
  by_cases hpk : 1 < peak l
  · rw [if_pos hpk] at hx
    rcases List.mem_map.mp hx with ⟨y, hy, rfl⟩
    rw [abs_div, abs_of_pos (lt_trans one_pos hpk)]
    rw [div_le_one (lt_trans one_pos hpk)]
    exact abs_le_peak hy
  · rw [if_neg hpk] at hx
    exact le_trans (abs_le_peak hx) (not_lt.mp hpk)

/-- C1: every primitive operation, applied to a Mixer holding a non-empty
buffer, yields a buffer of the same length.  The two positivity hypotheses
keep the model inside the regime where the intermediate array lengths the
source computes from floors are nonnegative (for other values the JS
source would throw rather than return a buffer). -/
theorem C1_length_invariance (O : Oracles) (rand : ℕ → ℚ) (sr : ℚ)
    (b : List ℚ) (hb : b ≠ [])
    (semitones shift rate depth delayMs decay roomSize damping amount levels spread drive : ℚ)
    (repeats voices : ℕ)
    (hshift : 0 < shift) (hstep : 0 < O.pow2Fn (semitones / 12)) :
    bufLen (dspPitchShift O semitones ⟨sr, some b⟩) = some b.length ∧
    bufLen (dspFormantShift shift ⟨sr, some b⟩) = some b.length ∧
    bufLen (dspVibrato O rate depth ⟨sr, some b⟩) = some b.length ∧
    bufLen (dspTremolo O rate depth ⟨sr, some b⟩) = some b.length ∧
    bufLen (dspEcho delayMs decay repeats ⟨sr, some b⟩) = some b.length ∧
    bufLen (dspReverb roomSize damping ⟨sr, some b⟩) = some b.length ∧
    bufLen (dspChorus O voices spread ⟨sr, some b⟩) = some b.length ∧
    bufLen (dspDistortion O drive ⟨sr, some b⟩) = some b.length ∧
    bufLen (dspQuantize levels ⟨sr, some b⟩) = some b.length ∧
    bufLen (dspSharpen amount ⟨sr, some b⟩) = some b.length ∧
    bufLen (dspJitter O rand amount ⟨sr, some b⟩) = some b.length := by
  simp only [bufLen_dspPitchShift, bufLen_dspFormantShift, bufLen_dspVibrato,
    bufLen_dspTremolo, bufLen_dspEcho, bufLen_dspReverb, bufLen_dspChorus,
    bufLen_dspDistortion, bufLen_dspQuantize, bufLen_dspSharpen,
    bufLen_dspJitter]
  simp [bufLen]

theorem C1_length_invariance_witness :
    bufLen (dspFormantShift 2 ⟨24000, some [(1:ℚ)]⟩) = some 1 :=
  (C1_length_invariance qOracles qRand 24000 [1] (by simp) 3 2 5 (1/2) 200
    (1/2) (1/2) (1/2) (3/10) 16 20 (1/2) 2 3 (by norm_num)
    (by norm_num [qOracles])).2.1

/-- C2: immediately after dspEcho, dspReverb or dspChorus completes, every
sample of the buffer the Mixer then holds has absolute value at most 1,
for every input buffer and every parameter choice (the source divides the
accumulated buffer by its peak whenever the peak exceeds 1.0, and a peak
of at most 1.0, including 0, skips the division). -/
theorem C2_normalized_bound (delayMs decay roomSize damping spread : ℚ)
    (repeats voices : ℕ) (O : Oracles) (m : Mixer) (b : List ℚ) :
    ((dspEcho delayMs decay repeats m).audioBuffer = some b → ∀ x ∈ b, |x| ≤ 1) ∧
    ((dspReverb roomSize damping m).audioBuffer = some b → ∀ x ∈ b, |x| ≤ 1) ∧
    ((dspChorus O voices spread m).audioBuffer = some b → ∀ x ∈ b, |x| ≤ 1) := by
  refine ⟨?_, ?_, ?_⟩ <;> intro hb x hx
  · cases hmb : m.audioBuffer with
    | none => simp [dspEcho, hmb] at hb
    | some buf =>
      simp [dspEcho, hmb] at hb
      subst hb
      exact abs_le_one_of_mem_normalizeIfOver (by rw [echoBuf] at hx; exact hx)
  · cases hmb : m.audioBuffer with
    | none => simp [dspReverb, hmb] at hb
    | some buf =>
      simp [dspReverb, hmb] at hb
      subst hb
      exact abs_le_one_of_mem_normalizeIfOver (by rw [reverbBuf] at hx; exact hx)
  · cases hmb : m.audioBuffer with
    | none => simp [dspChorus, hmb] at hb
    | some buf =>
      simp [dspChorus, hmb] at hb
      subst hb
      exact abs_le_one_of_mem_normalizeIfOver (by rw [chorusBuf] at hx; exact hx)

theorem C2_normalized_bound_witness :
    (dspEcho (0:ℚ) 0 0 ⟨24000, some [2]⟩).audioBuffer = some [1] ∧ |(1:ℚ)| ≤ 1 := by
  have heval : (dspEcho (0:ℚ) 0 0 (⟨24000, some [2]⟩ : Mixer)).audioBuffer = some [1] := by
    norm_num [dspEcho, echoBuf, normalizeIfOver, peak, List.foldl]
  exact ⟨heval,
    (C2_normalized_bound 0 0 0 0 0 0 0 qOracles ⟨24000, some [2]⟩ [1]).1 heval 1
      (by simp)⟩

/-- C3: calling any of the eleven primitive operations on a Mixer whose
buffer has not been set returns the same Mixer unchanged, with the buffer
still unset, for every parameter value; no error path exists. -/
theorem C3_unset_buffer_noop (O : Oracles) (rand : ℕ → ℚ)
    (semitones shift rate depth delayMs decay roomSize damping amount levels spread drive : ℚ)
    (repeats voices : ℕ) (m : Mixer) (h : m.audioBuffer = none) :
    dspPitchShift O semitones m = m ∧
    dspFormantShift shift m = m ∧
    dspVibrato O rate depth m = m ∧
    dspTremolo O rate depth m = m ∧
    dspEcho delayMs decay repeats m = m ∧
    dspReverb roomSize damping m = m ∧
    dspChorus O voices spread m = m ∧
    dspDistortion O drive m = m ∧
    dspQuantize levels m = m ∧
    dspSharpen amount m = m ∧
    dspJitter O rand amount m = m := by
  refine ⟨?_, ?_, ?_, ?_, ?_, ?_, ?_, ?_, ?_, ?_, ?_⟩ <;>
    simp [dspPitchShift, dspFormantShift, dspVibrato, dspTremolo, dspEcho,
      dspReverb, dspChorus, dspDistortion, dspQuantize, dspSharpen,
      dspJitter, h]

theorem C3_unset_buffer_noop_witness :
    dspTremolo qOracles 5 (1/2) ⟨24000, none⟩ = ⟨24000, none⟩ :=
  (C3_unset_buffer_noop qOracles qRand 3 (11/10) 5 (1/2) 200 (1/2) (1/2)
    (1/2) (3/10) 16 20 (1/2) 2 3 ⟨24000, none⟩ rfl).2.2.2.1

/-- C9: dspPitchShift at 0 semitones and dspFormantShift at factor 1.0 are
exact no-ops for every Mixer state, set or unset, returning the Mixer with
its buffer unchanged. -/
theorem C9_neutral_parameters_identity (O : Oracles) (m : Mixer) :
    dspPitchShift O 0 m = m ∧ dspFormantShift 1 m = m := by
  constructor
  · rw [dspPitchShift]; simp
  · rw [dspFormantShift]; simp

theorem getD_resample (input : List ℚ) {n i : ℕ} (hi : i < n) (d : ℚ) :
    (resample input n).getD i d = resampleAt input n i := by
  rw [resample]; exact getD_map_range hi d

theorem getLast?_getD (l : List ℚ) (d : ℚ) :
    l.getLast?.getD d = l.getD (l.length - 1) d := by
  rw [List.getLast?_eq_getElem?, List.getD_eq_getElem?_getD]

theorem resampleAt_eq_specAt (input : List ℚ) (n i : ℕ) (hne : input ≠ [])
    (hi : i < n) : resampleAt input n i = resampleSpecAt input n i := by
  have hlen : 0 < input.length := List.length_pos.mpr hne
  rw [resampleAt, resampleSpecAt]
  set pos : ℚ := (i : ℚ) * ((input.length : ℚ) / (n : ℚ)) with hposdef
  have hpos0 : (0:ℚ) ≤ pos := by rw [hposdef]; positivity
  have hfl0 : (0:ℤ) ≤ ⌊pos⌋ := Int.floor_nonneg.mpr hpos0
  have htn : ((⌊pos⌋.toNat : ℤ)) = ⌊pos⌋ := Int.toNat_of_nonneg hfl0
  have htnq : ((⌊pos⌋.toNat : ℚ)) = ((⌊pos⌋ : ℤ) : ℚ) := by exact_mod_cast htn
  by_cases hg : ⌊pos⌋ + 1 < (input.length : ℤ)
  · rw [if_pos hg, if_pos (by omega), htnq]
  · rw [if_neg hg, if_neg (by omega)]
    have hn : 0 < n := lt_of_le_of_lt (Nat.zero_le i) hi
    have hposlt : pos < (input.length : ℚ) := by
      have h1 : (i:ℚ) < (n:ℚ) := by exact_mod_cast hi
      have h2 : (0:ℚ) < (n:ℚ) := by exact_mod_cast hn
      have h3 : (0:ℚ) < (input.length:ℚ) := by exact_mod_cast hlen
      calc pos = (i:ℚ) * (input.length:ℚ) / (n:ℚ) := by rw [hposdef]; ring
        _ < (input.length:ℚ) := by rw [div_lt_iff h2]; nlinarith
    have hfllt : ⌊pos⌋ < (input.length : ℤ) :=
      Int.floor_lt.mpr (by exact_mod_cast hposlt)
    have hidx : ⌊pos⌋.toNat = input.length - 1 := by omega
    rw [hidx, getLast?_getD]

/-- C8: resample returns exactly newLength samples, an empty sequence for
newLength 0, and for a non-empty input it agrees pointwise with the spec
description resampleSpec: output index i reads fractional position
i * (len / newLength) with linear interpolation, holding the last sample
when the interpolation would read past the last valid index. -/
theorem C8_resample_contract (input : List ℚ) (n : ℕ) (hne : input ≠ []) :
    (resample input n).length = n ∧ resample input 0 = [] ∧
    resample input n = resampleSpec input n := by
  refine ⟨length_resample input n, rfl, ?_⟩
  rw [resample, resampleSpec]
  refine List.map_congr_left fun i hi => ?_
  exact resampleAt_eq_specAt input n i hne (List.mem_range.mp hi)

theorem C8_resample_contract_witness :
    (resample [(1:ℚ), 2] 3).length = 3 :=
  (C8_resample_contract [1, 2] 3 (by simp)).1

theorem resample_self (l : List ℚ) : resample l l.length = l := by
  apply List.ext_getElem (by rw [length_resample])
  intro i h1 h2
  have hi : i < l.length := h2
  have hstep : (resample l l.length)[i] = resampleAt l l.length i := by
    rw [← List.getD_eq_getElem _ 0 h1,
      getD_resample l (by rw [length_resample] at h1; exact h1) 0]
  rw [hstep, resampleAt]
  have hlen : 0 < l.length := lt_of_le_of_lt (Nat.zero_le i) hi
  have hq : ((l.length:ℚ)) ≠ 0 := by exact_mod_cast hlen.ne'
  rw [div_self hq, mul_one, Int.floor_natCast]
  simp only [Int.cast_natCast, sub_self, mul_zero, add_zero, sub_zero,
    mul_one, Int.toNat_natCast, ite_self]
  exact List.getD_eq_getElem l 0 h2

/-- C10: resampling a buffer to its own length reproduces the buffer
element for element, and consequently the two-stage formant shift is the
identity whenever the intermediate length floor(length / shift) equals the
original length. -/
theorem C10_resample_self_identity (input : List ℚ) (hne : input ≠ [])
    (shift : ℚ) (m : Mixer) (b : List ℚ) (hb : m.audioBuffer = some b)
    (hmid : (⌊(b.length : ℚ) / shift⌋).toNat = b.length) :
    resample input input.length = input ∧
    (dspFormantShift shift m).audioBuffer = some b := by
  refine ⟨resample_self input, ?_⟩
  by_cases h1 : shift = 1
  · rw [dspFormantShift, if_pos h1]; exact hb
  · simp only [dspFormantShift, if_neg h1, hb, formantShiftBuf]
    rw [hmid, resample_self, resample_self]

theorem mapLength_getBuffer (m : Mixer) :
    (getBuffer m).map List.length = bufLen m := rfl

theorem bufLen_presetOperaSinging (O : Oracles) (m : Mixer) :
    bufLen (presetOperaSinging O m) = bufLen m := by simp [presetOperaSinging]

theorem bufLen_presetPopSinging (O : Oracles) (m : Mixer) :
    bufLen (presetPopSinging O m) = bufLen m := by simp [presetPopSinging]

theorem bufLen_presetJazzSinging (O : Oracles) (m : Mixer) :
    bufLen (presetJazzSinging O m) = bufLen m := by simp [presetJazzSinging]

theorem bufLen_presetRockSinging (O : Oracles) (m : Mixer) :
    bufLen (presetRockSinging O m) = bufLen m := by simp [presetRockSinging]

theorem bufLen_presetGospelSinging (O : Oracles) (m : Mixer) :
    bufLen (presetGospelSinging O m) = bufLen m := by simp [presetGospelSinging]

theorem bufLen_presetCountrySinging (O : Oracles) (m : Mixer) :
    bufLen (presetCountrySinging O m) = bufLen m := by simp [presetCountrySinging]

theorem bufLen_presetRapVocal (O : Oracles) (m : Mixer) :
    bufLen (presetRapVocal O m) = bufLen m := by simp [presetRapVocal]

theorem bufLen_presetEDMVocal (O : Oracles) (m : Mixer) :
    bufLen (presetEDMVocal O m) = bufLen m := by simp [presetEDMVocal]

theorem bufLen_presetChipmunk (O : Oracles) (m : Mixer) :
    bufLen (presetChipmunk O m) = bufLen m := by simp [presetChipmunk]

theorem bufLen_presetMonster (O : Oracles) (m : Mixer) :
    bufLen (presetMonster O m) = bufLen m := by simp [presetMonster]

theorem bufLen_presetRobot (O : Oracles) (m : Mixer) :
    bufLen (presetRobot O m) = bufLen m := by simp [presetRobot]

theorem bufLen_presetAlien (O : Oracles) (rand : ℕ → ℚ) (m : Mixer) :
    bufLen (presetAlien O rand m) = bufLen m := by simp [presetAlien]

theorem bufLen_presetCave (O : Oracles) (m : Mixer) :
    bufLen (presetCave O m) = bufLen m := by simp [presetCave]

theorem bufLen_presetTelephone (O : Oracles) (m : Mixer) :
    bufLen (presetTelephone O m) = bufLen m := by simp [presetTelephone]

theorem bufLen_presetEthereal (O : Oracles) (m : Mixer) :
    bufLen (presetEthereal O m) = bufLen m := by simp [presetEthereal]

theorem bufLen_presetUnderwater (O : Oracles) (m : Mixer) :
    bufLen (presetUnderwater O m) = bufLen m := by simp [presetUnderwater]

theorem bufLen_presetGiant (O : Oracles) (m : Mixer) :
    bufLen (presetGiant O m) = bufLen m := by simp [presetGiant]

theorem bufLen_presetCartoon (O : Oracles) (rand : ℕ → ℚ) (m : Mixer) :
    bufLen (presetCartoon O rand m) = bufLen m := by simp [presetCartoon]

theorem bufLen_presetOldRadio (O : Oracles) (m : Mixer) :
    bufLen (presetOldRadio O m) = bufLen m := by simp [presetOldRadio]

theorem bufLen_presetWhisper (O : Oracles) (m : Mixer) :
    bufLen (presetWhisper O m) = bufLen m := by simp [presetWhisper]

/-- C4: applyPreset with a preset name that matches none of the twenty
preset methods logs a warning (second component true), raises no error,
and returns the buffer exactly as set, element for element. -/
theorem C4_unknown_preset_noop (O : Oracles) (rand : ℕ → ℚ)
    (buffer : List ℚ) (name : String) (sr : ℚ) (h : name ∉ presetNames) :
    applyPreset O rand buffer name sr = (some buffer, true) := by
  simp only [presetNames, getAvailablePresets, List.map_append, List.map_cons,
    List.map_nil, List.append_nil, List.cons_append, List.nil_append,
    List.mem_cons, List.not_mem_nil, or_false, not_or] at h
  obtain ⟨h1, h2, h3, h4, h5, h6, h7, h8, h9, h10, h11, h12, h13, h14, h15,
    h16, h17, h18, h19, h20⟩ := h
  simp [applyPreset, setBuffer, getBuffer, h1, h2, h3, h4, h5, h6, h7, h8,
    h9, h10, h11, h12, h13, h14, h15, h16, h17, h18, h19, h20]

theorem C4_unknown_preset_noop_witness :
    applyPreset qOracles qRand [(1:ℚ)] "NoSuchPreset" 24000 = (some [1], true) :=
  C4_unknown_preset_noop qOracles qRand [1] "NoSuchPreset" 24000
    (by simp [presetNames, getAvailablePresets])

theorem audioBuffer_of_bufLen {m : Mixer} {n : ℕ} (h : bufLen m = some n) :
    ∃ a, m.audioBuffer = some a ∧ a.length = n := by
  cases hb : m.audioBuffer with
  | none => rw [bufLen, hb] at h; cases h
  | some a => rw [bufLen, hb] at h; exact ⟨a, rfl, by simpa using h⟩

/-- C5 (amended): for each of the twenty preset names of the registry,
applyPreset on a non-empty buffer dispatches to the corresponding composed
pipeline (no warning is logged) and returns a buffer of the same length as
the input. -/
theorem C5_preset_dispatch_same_length (O : Oracles) (rand : ℕ → ℚ)
    (b : List ℚ) (hb : b ≠ []) (sr : ℚ) (name : String)
    (hname : name ∈ presetNames) :
    (applyPreset O rand b name sr).2 = false ∧
    ((applyPreset O rand b name sr).1).map List.length = some b.length := by
  simp only [presetNames, getAvailablePresets, List.map_append, List.map_cons,
    List.map_nil, List.append_nil, List.cons_append, List.nil_append,
    List.mem_cons, List.not_mem_nil, or_false] at hname
  rcases hname with rfl | rfl | rfl | rfl | rfl | rfl | rfl | rfl | rfl | rfl |
    rfl | rfl | rfl | rfl | rfl | rfl | rfl | rfl | rfl | rfl <;>
    (simp [applyPreset, setBuffer]
     exact audioBuffer_of_bufLen (by
      simp only [bufLen_presetOperaSinging, bufLen_presetPopSinging,
        bufLen_presetJazzSinging, bufLen_presetRockSinging,
        bufLen_presetGospelSinging, bufLen_presetCountrySinging,
        bufLen_presetRapVocal, bufLen_presetEDMVocal, bufLen_presetChipmunk,
        bufLen_presetMonster, bufLen_presetRobot, bufLen_presetAlien,
        bufLen_presetCave, bufLen_presetTelephone, bufLen_presetEthereal,
        bufLen_presetUnderwater, bufLen_presetGiant, bufLen_presetCartoon,
        bufLen_presetOldRadio, bufLen_presetWhisper]
      simp [bufLen]))

theorem C5_preset_dispatch_same_length_witness :
    (applyPreset qOracles qRand [(1:ℚ)] "OperaSinging" 24000).2 = false :=
  (C5_preset_dispatch_same_length qOracles qRand [1] (by simp) 24000
    "OperaSinging" (by simp [presetNames, getAvailablePresets])).1

/-- C5 counterexample: applying the preset named Robot to the non-empty
buffer consisting of the single sample 0 succeeds and keeps the length,
but returns the all-zero buffer, so the preset does not always produce a
buffer that is not all zeros.  The Robot pipeline (quantize, echo, formant
shift) calls none of the abstracted transcendental functions, so the
concrete oracle assignment is irrelevant to the computed value. -/
theorem C5_counterexample_robot_all_zero :
    applyPreset qOracles qRand [(0:ℚ)] "Robot" 24000 = (some [0], false) := by
  have hrobot : presetRobot qOracles ⟨24000, some [0]⟩ = ⟨24000, some [0]⟩ := by
    norm_num [presetRobot, dspQuantize, dspEcho, dspFormantShift, quantizeBuf,
      echoBuf, formantShiftBuf, normalizeIfOver, peak, addAt, resample,
      resampleAt, List.foldl, List.range_succ]
  simp [applyPreset, setBuffer, getBuffer, hrobot]

theorem C10_resample_self_identity_witness :
    resample [(1:ℚ), 2] 2 = [1, 2] ∧
    (dspFormantShift (2/3) ⟨24000, some [(5:ℚ)]⟩).audioBuffer = some [5] :=
  C10_resample_self_identity [1, 2] (by simp) (2/3) ⟨24000, some [5]⟩ [5] rfl
    (by norm_num)

theorem storePreserve_inPlaceWrite (f : List ℚ → List ℚ) (n : ℕ)
    (s : JsHeapState) (hlen : n ≤ s.store.length)
    (hid : ∀ id, s.bufferId = some id → n ≤ id) :
    n ≤ (inPlaceWrite s f).store.length ∧
    (∀ i, i < n → (inPlaceWrite s f).store.getD i [] = s.store.getD i []) ∧
    (∀ id, (inPlaceWrite s f).bufferId = some id → n ≤ id) := by
  cases hb : s.bufferId with
  | none =>
    refine ⟨?_, ?_, ?_⟩
    · simp only [inPlaceWrite, hb]; exact hlen
    · intro i _; simp only [inPlaceWrite, hb]
    · intro id2 h2; simp only [inPlaceWrite, hb] at h2; exact Option.noConfusion h2
  | some id =>
    have hn : n ≤ id := hid id hb
    refine ⟨?_, ?_, ?_⟩
    · simp only [inPlaceWrite, hb]; simpa using hlen
    · intro i hi
      have hne : i ≠ id := by omega
      simp only [inPlaceWrite, hb]
      rw [List.getD_eq_getElem?_getD, List.getD_eq_getElem?_getD,
        List.getElem?_set_ne (fun hh => hne hh.symm)]
      rw [List.getD_eq_getElem?_getD]
    · intro id2 h2
      simp only [inPlaceWrite, hb] at h2
      exact hid id2 (hb.trans h2)

theorem storePreserve_freshAssign (f : List ℚ → List ℚ) (n : ℕ)
    (s : JsHeapState) (hlen : n ≤ s.store.length)
    (hid : ∀ id, s.bufferId = some id → n ≤ id) :
    n ≤ (freshAssign s f).store.length ∧
    (∀ i, i < n → (freshAssign s f).store.getD i [] = s.store.getD i []) ∧
    (∀ id, (freshAssign s f).bufferId = some id → n ≤ id) := by
  cases hb : s.bufferId with
  | none =>
    refine ⟨?_, ?_, ?_⟩
    · simp only [freshAssign, hb]; exact hlen
    · intro i _; simp only [freshAssign, hb]
    · intro id2 h2; simp only [freshAssign, hb] at h2; exact Option.noConfusion h2
  | some id =>
    refine ⟨?_, ?_, ?_⟩
    · simp only [freshAssign, hb, List.length_append, List.length_cons,
        List.length_nil]
      omega
    · intro i hi
      simp only [freshAssign, hb]
      rw [List.getD_eq_getElem?_getD, List.getD_eq_getElem?_getD,
        List.getElem?_append_left (lt_of_lt_of_le hi hlen)]
      rw [List.getD_eq_getElem?_getD]
    · intro id2 h2
      simp only [freshAssign, hb, Option.some.injEq] at h2
      omega

theorem storePreserve_applyOpH (O : Oracles) (rand : ℕ → ℚ) (n : ℕ)
    (s : JsHeapState) (op : DspOp) (hlen : n ≤ s.store.length)
    (hid : ∀ id, s.bufferId = some id → n ≤ id) :
    n ≤ (applyOpH O rand s op).store.length ∧
    (∀ i, i < n → (applyOpH O rand s op).store.getD i [] = s.store.getD i []) ∧
    (∀ id, (applyOpH O rand s op).bufferId = some id → n ≤ id) := by
  cases op with
  | pitchShift semitones =>
    rw [applyOpH]
    split
    · exact ⟨hlen, fun i _ => rfl, hid⟩
    · exact storePreserve_freshAssign _ n s hlen hid
  | formantShift shift =>
    rw [applyOpH]
    split
    · exact ⟨hlen, fun i _ => rfl, hid⟩
    · exact storePreserve_freshAssign _ n s hlen hid
  | vibrato rate depth => exact storePreserve_freshAssign _ n s hlen hid
  | tremolo rate depth => exact storePreserve_inPlaceWrite _ n s hlen hid
  | echo delayMs decay repeats => exact storePreserve_freshAssign _ n s hlen hid
  | reverb roomSize damping => exact storePreserve_freshAssign _ n s hlen hid
  | sharpen amount => exact storePreserve_freshAssign _ n s hlen hid
  | quantize levels => exact storePreserve_inPlaceWrite _ n s hlen hid
  | jitter amount => exact storePreserve_freshAssign _ n s hlen hid
  | chorus voices spread => exact storePreserve_freshAssign _ n s hlen hid
  | distortion drive => exact storePreserve_inPlaceWrite _ n s hlen hid

theorem storePreserve_runChainH (O : Oracles) (rand : ℕ → ℚ)
    (ops : List DspOp) : ∀ (s : JsHeapState) (n : ℕ),
    n ≤ s.store.length → (∀ id, s.bufferId = some id → n ≤ id) →
    ∀ i, i < n → (runChainH O rand ops s).store.getD i [] = s.store.getD i [] := by
  induction ops with
  | nil => intro s n _ _ i _; rfl
  | cons op t ih =>
    intro s n hlen hid i hi
    have h3 := storePreserve_applyOpH O rand n s op hlen hid
    have hstep : runChainH O rand (op :: t) s =
        runChainH O rand t (applyOpH O rand s op) := rfl
    rw [hstep]
    exact (ih (applyOpH O rand s op) n h3.1 h3.2.2 i hi).trans (h3.2.1 i hi)

/-- C6 counterexample: setBuffer given a plain JS Array stores it by
reference (mixer.js line 18 only copies when Array.isArray is false), so
the in-place primitive dspQuantize then mutates the caller array: after
setBuffer(a) with a = [0.3] and dspQuantize(16), the caller array has
become [5/16]. -/
theorem C6_counterexample_alias_mutation :
    (runChainH qOracles qRand [DspOp.quantize 16]
        (setBufferH ⟨[[3/10]], 24000, none⟩ (BufferArg.jsArray 0))).store.getD 0 []
      ≠ [3/10] := by
  norm_num [runChainH, applyOpH, setBufferH, inPlaceWrite, quantizeBuf,
    List.foldl, round_eq, List.set_cons_zero, List.getD_cons_zero]

/-- C6 (amended): setBuffer copies the caller data into a fresh allocation
only when the argument is not a plain JS Array (for example a Float32Array,
copied by Array.from); after such a call no chain of primitive operations
mutates any array allocated before the call.  When the caller passes a
plain Array it is adopted by reference and the in-place primitives mutate
it, as the counterexample shows. -/
theorem C6_typed_array_callers_untouched (O : Oracles) (rand : ℕ → ℚ)
    (s : JsHeapState) (data : List ℚ) (ops : List DspOp) (i : ℕ)
    (hi : i < s.store.length) :
    (runChainH O rand ops
        (setBufferH s (BufferArg.typedArray data))).store.getD i []
      = s.store.getD i [] := by
  have h0 : (setBufferH s (BufferArg.typedArray data)).store.getD i []
      = s.store.getD i [] := by
    simp only [setBufferH]
    rw [List.getD_eq_getElem?_getD, List.getD_eq_getElem?_getD,
      List.getElem?_append_left hi]
  have h1 : s.store.length ≤ (setBufferH s (BufferArg.typedArray data)).store.length := by
    simp [setBufferH]
  have h2 : ∀ id, (setBufferH s (BufferArg.typedArray data)).bufferId = some id →
      s.store.length ≤ id := by
    intro id hid
    simp only [setBufferH, Option.some.injEq] at hid
    omega
  exact (storePreserve_runChainH O rand ops _ s.store.length h1 h2 i hi).trans h0

theorem C6_typed_array_callers_untouched_witness :
    (runChainH qOracles qRand [DspOp.quantize 16]
        (setBufferH ⟨[[(7:ℚ)]], 24000, none⟩ (BufferArg.typedArray [3/10]))).store.getD 0 []
      = [(7:ℚ)] :=
  C6_typed_array_callers_untouched qOracles qRand ⟨[[(7:ℚ)]], 24000, none⟩
    [3/10] [DspOp.quantize 16] 0 (by simp)

/-- C7 counterexample: dspJitter consumes fresh Math.random draws on every
invocation, so two invocations on equal buffers with equal parameters can
differ: with amount 12, the draw 1/2 gives jitter 0 and resample step
pow2Fn 0 = 1 (the identity read pattern), while the draw 0 gives jitter
-12 and step pow2Fn (-1) = 1/2, which interpolates [0, 1, 0] into
[0, 1/2, 1].  Math.pow(2, x) is consulted only at 0 and -1, where the
concrete cOracles assignment matches it exactly. -/
theorem C7_counterexample_jitter_random :
    dspJitter cOracles (fun _ => 1/2) 12 ⟨24000, some [0, 1, 0]⟩ ≠
    dspJitter cOracles (fun _ => 0) 12 ⟨24000, some [0, 1, 0]⟩ := by
  have ht0 : ((0:ℤ)).toNat = 0 := rfl
  have ht1 : ((1:ℤ)).toNat = 1 := rfl
  have ht2 : ((2:ℤ)).toNat = 2 := rfl
  have hA : dspJitter cOracles (fun _ => 1/2) 12 ⟨24000, some [0, 1, 0]⟩ =
      ⟨24000, some [0, 1, 0]⟩ := by
    norm_num [dspJitter, jitterBuf, cOracles, addAt, List.foldl,
      List.range_succ, List.set_cons_zero, List.set_cons_succ,
      ht0, ht1, ht2, List.replicate, List.getElem_cons_zero,
      List.getElem_cons_succ, List.getD_cons_zero, List.getD_cons_succ]
  have hB : dspJitter cOracles (fun _ => 0) 12 ⟨24000, some [0, 1, 0]⟩ =
      ⟨24000, some [0, 1/2, 1]⟩ := by
    norm_num [dspJitter, jitterBuf, cOracles, addAt, List.foldl,
      List.range_succ, List.set_cons_zero, List.set_cons_succ,
      ht0, ht1, ht2, List.replicate, List.getElem_cons_zero,
      List.getElem_cons_succ, List.getD_cons_zero, List.getD_cons_succ]
  rw [hA, hB]
  intro h
  have hfields := congrArg Mixer.audioBuffer h
  norm_num at hfields

/-- C7 (amended): every primitive is a function of the input buffer, the
sample rate and its parameters alone, with the single exception that
dspJitter additionally depends on the stream of Math.random draws of the
call: two invocations on Mixers holding equal buffers at equal sample
rates, with equal parameters, give equal results, where for dspJitter the
two calls must also see equal random draws. -/
theorem C7_primitives_deterministic (O : Oracles) (rand : ℕ → ℚ)
    (m1 m2 : Mixer) (hsr : m1.sampleRate = m2.sampleRate)
    (hbuf : m1.audioBuffer = m2.audioBuffer)
    (semitones shift rate depth delayMs decay roomSize damping amount levels spread drive : ℚ)
    (repeats voices : ℕ) :
    dspPitchShift O semitones m1 = dspPitchShift O semitones m2 ∧
    dspFormantShift shift m1 = dspFormantShift shift m2 ∧
    dspVibrato O rate depth m1 = dspVibrato O rate depth m2 ∧
    dspTremolo O rate depth m1 = dspTremolo O rate depth m2 ∧
    dspEcho delayMs decay repeats m1 = dspEcho delayMs decay repeats m2 ∧
    dspReverb roomSize damping m1 = dspReverb roomSize damping m2 ∧
    dspChorus O voices spread m1 = dspChorus O voices spread m2 ∧
    dspDistortion O drive m1 = dspDistortion O drive m2 ∧
    dspQuantize levels m1 = dspQuantize levels m2 ∧
    dspSharpen amount m1 = dspSharpen amount m2 ∧
    dspJitter O rand amount m1 = dspJitter O rand amount m2 := by
  have hm : m1 = m2 := by
    cases m1; cases m2; simp_all
  subst hm
  exact ⟨rfl, rfl, rfl, rfl, rfl, rfl, rfl, rfl, rfl, rfl, rfl⟩

theorem C7_primitives_deterministic_witness :
    dspQuantize 16 ⟨24000, some [(1:ℚ)]⟩ = dspQuantize 16 ⟨24000, some [(1:ℚ)]⟩ :=
  (C7_primitives_deterministic qOracles qRand ⟨24000, some [1]⟩
    ⟨24000, some [1]⟩ rfl rfl 3 (11/10) 5 (1/2) 200 (1/2) (1/2) (1/2) (3/10)
    16 20 (1/2) 2 3).2.2.2.2.2.2.2.2.1

end Supertonic
